import Mathlib

/-!
Shallow embedding of `src/hash_builder/value.rs` from the `alloy-trie` crate:
the `HashBuilderValue` owner type, its borrowed reference type
`HashBuilderValueRef`, the kind tag `HashBuilderValueKind`, the debug
formatting, and the two randomized-instance generators.

Byte sequences are modelled as `List Nat` (each element a byte value);
`alloy_primitives::B256` is modelled as a list of length exactly 32.
`Vec<u8>` capacity is not part of the model: the derived Rust `PartialEq`
compares only contents, which is what the structural equality here captures.
-/

set_option maxRecDepth 100000

namespace AlloyTrie

/-- Model of `alloy_primitives::B256`: a fixed 32-byte value. -/
def B256 : Type := { l : List Nat // l.length = 32 }

instance : DecidableEq B256 :=
  inferInstanceAs (DecidableEq { l : List Nat // l.length = 32 })

/-- `B256::default()`: thirty-two zero bytes. -/
def B256.default : B256 := ⟨List.replicate 32 0, by simp⟩

/-- Constructor wrapper for a `B256` from a list with a length proof. -/
def B256.mk (l : List Nat) (h : l.length = 32) : B256 := Subtype.mk l h

/-- `B256::from_slice`: copies a 32-byte slice. The Rust function panics when
the slice length is not 32; that branch is modelled by the (unreachable at
every call site in this file) `else` arm returning the default value. -/
def B256.from_slice (l : List Nat) : B256 :=
  if h : l.length = 32 then ⟨l, h⟩ else B256.default

/-- `B256::as_slice` / `B256::to_vec`: the underlying bytes. -/
def B256.as_slice (h : B256) : List Nat := h.val

/-- The kind of the current hash builder value (`HashBuilderValueKind`). -/
inductive HashBuilderValueKind : Type
  /-- Value of the leaf node. -/
  | Bytes
  /-- Hash of adjacent nodes. -/
  | Hash
deriving DecidableEq, Repr

/-- `HashBuilderValueKind::default()` is `Bytes` (the `#[default]` variant). -/
def HashBuilderValueKind.default : HashBuilderValueKind := .Bytes

/-- Hash builder value reference (`HashBuilderValueRef`). -/
inductive HashBuilderValueRef : Type
  /-- Value of the leaf node. -/
  | Bytes (bytes : List Nat)
  /-- Hash of adjacent nodes. -/
  | Hash (hash : B256)
deriving DecidableEq

/-- `HashBuilderValueRef::as_slice`: the value as a slice. -/
def HashBuilderValueRef.as_slice : HashBuilderValueRef → List Nat
  | .Bytes bytes => bytes
  | .Hash hash => hash.val

/-- `HashBuilderValueRef::kind`: the kind of the value. -/
def HashBuilderValueRef.kind : HashBuilderValueRef → HashBuilderValueKind
  | .Bytes _ => .Bytes
  | .Hash _ => .Hash

/-- Hash builder value (`HashBuilderValue`): owned buffer `buf`, kind tag,
and the cached hash `_hash`. Structural equality over the three fields models
the derived Rust `PartialEq`/`Eq` (`Vec` equality compares contents only). -/
structure HashBuilderValue : Type where
  buf : List Nat
  kind : HashBuilderValueKind
  _hash : B256
deriving DecidableEq

/-- `HashBuilderValue::new()` / `Default::default()`: empty buffer (the
reserved capacity of 128 is not content and is not modelled), default kind
`Bytes`, zero cached hash. -/
def HashBuilderValue.new : HashBuilderValue :=
  { buf := [], kind := HashBuilderValueKind.default, _hash := B256.default }

/-- `HashBuilderValue::as_ref()`: the value as a reference. In the `Hash`
branch the source has `debug_assert_eq!(self.buf.len(), 32)`; the asserted
proposition is `as_ref_assertion` below. -/
def HashBuilderValue.as_ref (v : HashBuilderValue) : HashBuilderValueRef :=
  match v.kind with
  | .Bytes => .Bytes v.buf
  | .Hash => .Hash v._hash

/-- The proposition checked by the `debug_assert_eq!` inside `as_ref`:
whenever the kind is `Hash`, the buffer length is 32. -/
def HashBuilderValue.as_ref_assertion (v : HashBuilderValue) : Prop :=
  v.kind = HashBuilderValueKind.Hash → v.buf.length = 32

instance (v : HashBuilderValue) : Decidable v.as_ref_assertion := by
  unfold HashBuilderValue.as_ref_assertion; infer_instance

/-- `HashBuilderValue::as_slice()`: the raw buffer contents. -/
def HashBuilderValue.as_slice (v : HashBuilderValue) : List Nat := v.buf

/-- `HashBuilderValue::set_bytes_owned(bytes)`: replaces the buffer, sets the
kind to `Bytes`, and leaves `_hash` untouched. -/
def HashBuilderValue.set_bytes_owned (v : HashBuilderValue) (bytes : List Nat) :
    HashBuilderValue :=
  { v with buf := bytes, kind := .Bytes }

/-- `HashBuilderValue::set_from_ref(value)`: clears the buffer and extends it
with the slice of `value` (content-wise: the buffer becomes exactly that
slice), sets the kind from `value`, and sets `_hash` to the referenced hash
for a `Hash` reference and to the default (all-zero) value otherwise. -/
def HashBuilderValue.set_from_ref (_v : HashBuilderValue)
    (value : HashBuilderValueRef) : HashBuilderValue :=
  { buf := value.as_slice,
    kind := value.kind,
    _hash := match value with
      | .Bytes _ => B256.default
      | .Hash hash => hash }

/-- `HashBuilderValue::clear()`: empties the buffer (capacity kept, not
modelled), resets the kind to the default `Bytes`, zeroes `_hash`. -/
def HashBuilderValue.clear (_v : HashBuilderValue) : HashBuilderValue :=
  { buf := [], kind := HashBuilderValueKind.default, _hash := B256.default }

/-- Lowercase hexadecimal digit for a value below 16, as in the `hex` crate. -/
def hexChar (n : Nat) : Char :=
  if n < 10 then Char.ofNat (48 + n) else Char.ofNat (87 + n)

/-- Model of `hex::encode_prefixed`: `0x` followed by two lowercase hex
digits per byte. -/
def encodeHex0x (l : List Nat) : String :=
  "0x" ++ String.mk ((l.map fun b => [hexChar (b / 16), hexChar (b % 16)]).flatten)

/-- `impl fmt::Debug for HashBuilderValueRef`: renders
the variant name followed by the hex-encoded bytes in parentheses. -/
def HashBuilderValueRef.debugFmt (r : HashBuilderValueRef) : String :=
  (match r with
    | .Bytes _ => "Bytes"
    | .Hash _ => "Hash")
    ++ "(" ++ encodeHex0x r.as_slice ++ ")"

/-- `impl fmt::Debug for HashBuilderValue`: delegates to `self.as_ref()`. -/
def HashBuilderValue.debugFmt (v : HashBuilderValue) : String :=
  v.as_ref.debugFmt

/-- Model of `impl arbitrary::Arbitrary for HashBuilderValue`, parametrised by
the outputs of the nested generators: `vecData` stands for the result of
`Vec::<u8>::arbitrary(g)` (which may be a byte vector of any length — it is
bounded only by the remaining unstructured input, not by 128) and `hashData`
for the result of `B256::arbitrary(g)`. -/
def HashBuilderValue.arbitraryGen (kind : HashBuilderValueKind)
    (vecData : List Nat) (hashData : B256) : HashBuilderValue :=
  match kind with
  | .Bytes => { buf := vecData, kind := .Bytes, _hash := B256.default }
  | .Hash => { buf := hashData.val, kind := .Hash, _hash := hashData }

/-- The length range `0..=128` or `32..=32` used by the proptest strategy. -/
def kindLenRange : HashBuilderValueKind → Nat × Nat
  | .Bytes => (0, 128)
  | .Hash => (32, 32)

/-- Model of `impl proptest::arbitrary::Arbitrary for HashBuilderValue`,
parametrised by the kind drawn first and the buffer drawn by
`proptest::collection::vec(any::<u8>(), range)`; that combinator only yields
buffers whose length lies in `kindLenRange kind`, carried as a hypothesis in
the theorems below. -/
def HashBuilderValue.proptestGen (kind : HashBuilderValueKind)
    (buf : List Nat) : HashBuilderValue :=
  { buf := buf, kind := kind,
    _hash := if kind = HashBuilderValueKind.Hash then B256.from_slice buf
             else B256.default }

/-- The states of a `HashBuilderValue` reachable from `new()` by any sequence
of `set_bytes_owned`, `set_from_ref` and `clear` calls. -/
inductive Reachable : HashBuilderValue → Prop where
  | new : Reachable HashBuilderValue.new
  | set_bytes_owned (v : HashBuilderValue) (bytes : List Nat) :
      Reachable v → Reachable (v.set_bytes_owned bytes)
  | set_from_ref (v : HashBuilderValue) (r : HashBuilderValueRef) :
      Reachable v → Reachable (v.set_from_ref r)
  | clear (v : HashBuilderValue) : Reachable v → Reachable v.clear

/-- Core invariant: on every reachable state, `Hash` kind forces the buffer
to coincide with the cached hash bytes. -/
lemma reachable_hash_sync {v : HashBuilderValue} (h : Reachable v) :
    v.kind = HashBuilderValueKind.Hash → v.buf = v._hash.val := by
  induction h with
  | new =>
      intro hk
      simp [HashBuilderValue.new, HashBuilderValueKind.default] at hk
  | set_bytes_owned w bytes _ _ =>
      intro hk
      simp [HashBuilderValue.set_bytes_owned] at hk
  | set_from_ref w r _ _ =>
      cases r with
      | Bytes bytes =>
          intro hk
          simp [HashBuilderValue.set_from_ref, HashBuilderValueRef.kind] at hk
      | Hash hsh =>
          intro _
          rfl
  | clear w _ _ =>
      intro hk
      simp [HashBuilderValue.clear, HashBuilderValueKind.default] at hk

/-- C1: on every value reachable from `new()` by any sequence of
`set_bytes_owned`, `set_from_ref` and `clear` calls, kind `Hash` implies the
buffer has length exactly 32 and equals the cached hash bytes; kind `Bytes`
implies the slice of the reference returned by `as_ref()` equals the raw
buffer; and `as_slice()` always equals the bytes of the view `as_ref()`
returns. -/
theorem kind_buffer_sync (v : HashBuilderValue) (h : Reachable v) :
    (v.kind = HashBuilderValueKind.Hash →
      v.buf.length = 32 ∧ v.buf = v._hash.val) ∧
    (v.kind = HashBuilderValueKind.Bytes → v.as_ref.as_slice = v.buf) ∧
    v.as_slice = v.as_ref.as_slice := by
  have hs := reachable_hash_sync h
  refine ⟨fun hk => ⟨?_, hs hk⟩, fun hk => ?_, ?_⟩
  · rw [hs hk]
    exact v._hash.2
  · simp [HashBuilderValue.as_ref, hk, HashBuilderValueRef.as_slice]
  · cases hk : v.kind with
    | Bytes =>
        simp [HashBuilderValue.as_ref, HashBuilderValue.as_slice, hk,
          HashBuilderValueRef.as_slice]
    | Hash =>
        simp [HashBuilderValue.as_ref, HashBuilderValue.as_slice, hk,
          HashBuilderValueRef.as_slice, hs hk]

/-- Witness for C1: a concrete reachable `Hash`-kind state. -/
theorem kind_buffer_sync_witness :
    Reachable (HashBuilderValue.new.set_from_ref
      (HashBuilderValueRef.Hash B256.default)) ∧
    ((HashBuilderValue.new.set_from_ref
        (HashBuilderValueRef.Hash B256.default)).kind =
          HashBuilderValueKind.Hash →
      (HashBuilderValue.new.set_from_ref
        (HashBuilderValueRef.Hash B256.default)).buf.length = 32 ∧
      (HashBuilderValue.new.set_from_ref
        (HashBuilderValueRef.Hash B256.default)).buf =
      (HashBuilderValue.new.set_from_ref
        (HashBuilderValueRef.Hash B256.default))._hash.val) ∧
    ((HashBuilderValue.new.set_from_ref
        (HashBuilderValueRef.Hash B256.default)).kind =
          HashBuilderValueKind.Bytes →
      (HashBuilderValue.new.set_from_ref
        (HashBuilderValueRef.Hash B256.default)).as_ref.as_slice =
      (HashBuilderValue.new.set_from_ref
        (HashBuilderValueRef.Hash B256.default)).buf) ∧
    (HashBuilderValue.new.set_from_ref
      (HashBuilderValueRef.Hash B256.default)).as_slice =
    (HashBuilderValue.new.set_from_ref
      (HashBuilderValueRef.Hash B256.default)).as_ref.as_slice :=
  ⟨Reachable.set_from_ref _ _ Reachable.new,
   kind_buffer_sync _ (Reachable.set_from_ref _ _ Reachable.new)⟩

/-- C3: after `w.set_from_ref r` the buffer is exactly `r.as_slice`, the kind
matches the variant of `r`, and the cached hash is the referenced hash for a
`Hash` reference and the all-zero default for a `Bytes` reference, whatever
the prior state `w` was; and the default really is thirty-two zero bytes. -/
theorem set_from_ref_postcondition (w : HashBuilderValue)
    (r : HashBuilderValueRef) :
    (w.set_from_ref r).buf = r.as_slice ∧
    (w.set_from_ref r).kind = r.kind ∧
    ((w.set_from_ref r)._hash = match r with
      | .Bytes _ => B256.default
      | .Hash hsh => hsh) ∧
    B256.default.val = List.replicate 32 0 := by
  cases r with
  | Bytes bytes => exact ⟨rfl, rfl, rfl, rfl⟩
  | Hash hsh => exact ⟨rfl, rfl, rfl, rfl⟩

/-- C4: the `debug_assert_eq!(self.buf.len(), 32)` inside `as_ref` never
fires on a reachable state: kind `Hash` forces buffer length 32, so the
failing branch of the assertion is unreachable (and every operation in the
model is a total function — nothing fails or throws). -/
theorem debug_assertion_never_fires (v : HashBuilderValue) (h : Reachable v) :
    v.as_ref_assertion := by
  intro hk
  rw [reachable_hash_sync h hk]
  exact v._hash.2

/-- Witness for C4: the assertion proposition holds on a concrete reachable
`Hash`-kind state. -/
theorem debug_assertion_never_fires_witness :
    Reachable (HashBuilderValue.new.set_from_ref
      (HashBuilderValueRef.Hash B256.default)) ∧
    (HashBuilderValue.new.set_from_ref
      (HashBuilderValueRef.Hash B256.default)).as_ref_assertion :=
  ⟨Reachable.set_from_ref _ _ Reachable.new,
   debug_assertion_never_fires _ (Reachable.set_from_ref _ _ Reachable.new)⟩

/-- C5: for a 32-byte sequence `b`, a fresh value set via
`set_bytes_owned b` equals a fresh value set via `set_from_ref (Bytes b)`,
but neither equals a fresh value set via `set_from_ref (Hash h)` where the
bytes of `h` are `b`: the kind is part of the derived structural equality
even when the raw buffer bytes coincide. -/
theorem equality_kind_identity (b : List Nat) (hsh : B256)
    (_hb : hsh.val = b) :
    HashBuilderValue.new.set_bytes_owned b =
      HashBuilderValue.new.set_from_ref (HashBuilderValueRef.Bytes b) ∧
    HashBuilderValue.new.set_bytes_owned b ≠
      HashBuilderValue.new.set_from_ref (HashBuilderValueRef.Hash hsh) ∧
    HashBuilderValue.new.set_from_ref (HashBuilderValueRef.Bytes b) ≠
      HashBuilderValue.new.set_from_ref (HashBuilderValueRef.Hash hsh) := by
  refine ⟨rfl, fun hEq => ?_, fun hEq => ?_⟩
  · have hk := congrArg HashBuilderValue.kind hEq
    simp [HashBuilderValue.set_bytes_owned, HashBuilderValue.set_from_ref,
      HashBuilderValueRef.kind, HashBuilderValue.new] at hk
  · have hk := congrArg HashBuilderValue.kind hEq
    simp [HashBuilderValue.set_from_ref, HashBuilderValueRef.kind] at hk

/-- Witness for C5 at the 32-byte sequence of `0xAA` bytes. -/
theorem equality_kind_identity_witness :
    (B256.from_slice (List.replicate 32 170)).val = List.replicate 32 170 ∧
    (HashBuilderValue.new.set_bytes_owned (List.replicate 32 170) =
      HashBuilderValue.new.set_from_ref
        (HashBuilderValueRef.Bytes (List.replicate 32 170)) ∧
    HashBuilderValue.new.set_bytes_owned (List.replicate 32 170) ≠
      HashBuilderValue.new.set_from_ref
        (HashBuilderValueRef.Hash (B256.from_slice (List.replicate 32 170))) ∧
    HashBuilderValue.new.set_from_ref
        (HashBuilderValueRef.Bytes (List.replicate 32 170)) ≠
      HashBuilderValue.new.set_from_ref
        (HashBuilderValueRef.Hash (B256.from_slice (List.replicate 32 170)))) :=
  ⟨by decide,
   equality_kind_identity (List.replicate 32 170)
     (B256.from_slice (List.replicate 32 170)) (by decide)⟩

/-- C6: `set_bytes_owned` replaces the buffer with the given bytes, sets the
kind to `Bytes`, and leaves the cached hash field exactly as it was before
the call (not zeroed, not rewritten). -/
theorem set_bytes_owned_frame (v : HashBuilderValue) (bytes : List Nat) :
    (v.set_bytes_owned bytes).buf = bytes ∧
    (v.set_bytes_owned bytes).kind = HashBuilderValueKind.Bytes ∧
    (v.set_bytes_owned bytes)._hash = v._hash :=
  ⟨rfl, rfl, rfl⟩

/-- C7: after `clear()` — from any prior state — the buffer is empty, the
kind is `Bytes`, the cached hash is all-zero, `as_ref()` yields a `Bytes`
view over an empty slice, and the debug rendering is `Bytes(0x)`. -/
theorem clear_resets_state (v : HashBuilderValue) :
    v.clear.buf = [] ∧
    v.clear.kind = HashBuilderValueKind.Bytes ∧
    v.clear._hash = B256.default ∧
    v.clear.as_ref = HashBuilderValueRef.Bytes [] ∧
    v.clear.debugFmt = "Bytes(0x)" :=
  ⟨rfl, rfl, rfl, rfl, rfl⟩

/-- C10: `clear()` restores exactly the default value: for every state `v`,
`v.clear` is equal — under the structural equality over buffer contents, kind
and cached hash, which ignores reserved capacity — to
`HashBuilderValue.new`, so any observation after `clear()` agrees with a
freshly constructed value. -/
theorem clear_eq_new (v : HashBuilderValue) :
    v.clear = HashBuilderValue.new :=
  rfl

/-- C2 counterexample: the round-trip `new().set_from_ref(v.as_ref())` is
not structurally equal to `v` for every reachable `v`: after
`set_from_ref (Hash h)` with a nonzero `h` followed by `set_bytes_owned`,
the cached hash stays stale and nonzero, while the round-tripped value has a
zero cached hash; the derived equality compares the cached hash field. -/
theorem roundtrip_via_view_counterexample :
    Reachable ((HashBuilderValue.new.set_from_ref
        (HashBuilderValueRef.Hash (B256.from_slice (List.replicate 32 17)))).set_bytes_owned
        [170]) ∧
    HashBuilderValue.new.set_from_ref
        (((HashBuilderValue.new.set_from_ref
          (HashBuilderValueRef.Hash (B256.from_slice (List.replicate 32 17)))).set_bytes_owned
          [170]).as_ref) ≠
      ((HashBuilderValue.new.set_from_ref
        (HashBuilderValueRef.Hash (B256.from_slice (List.replicate 32 17)))).set_bytes_owned
        [170]) :=
  ⟨Reachable.set_bytes_owned _ _ (Reachable.set_from_ref _ _ Reachable.new),
   by decide⟩

/-- C2 amended: for every reachable `v`, the round-trip
`new().set_from_ref(v.as_ref())` reproduces the buffer and the kind of `v`
(hence the same view); it is structurally equal to `v` provided the cached
hash of `v` is not stale, i.e. provided `v._hash` is the all-zero default
whenever `v.kind` is `Bytes` (a `set_bytes_owned` call can leave a nonzero
stale cached hash, which the round-trip resets to zero). -/
theorem roundtrip_via_view_amended (v : HashBuilderValue) (h : Reachable v) :
    (HashBuilderValue.new.set_from_ref v.as_ref).buf = v.buf ∧
    (HashBuilderValue.new.set_from_ref v.as_ref).kind = v.kind ∧
    ((v.kind = HashBuilderValueKind.Bytes → v._hash = B256.default) →
      HashBuilderValue.new.set_from_ref v.as_ref = v) := by
  have hs := reachable_hash_sync h
  obtain ⟨buf, kind, hsh⟩ := v
  cases kind with
  | Bytes =>
      refine ⟨rfl, rfl, fun hns => ?_⟩
      have : hsh = B256.default := hns rfl
      simp [HashBuilderValue.new, HashBuilderValue.set_from_ref,
        HashBuilderValue.as_ref, HashBuilderValueRef.as_slice,
        HashBuilderValueRef.kind, HashBuilderValueKind.default, this]
  | Hash =>
      have hbuf : buf = hsh.val := hs rfl
      refine ⟨hbuf.symm, rfl, fun _ => ?_⟩
      simp [HashBuilderValue.new, HashBuilderValue.set_from_ref,
        HashBuilderValue.as_ref, HashBuilderValueRef.as_slice,
        HashBuilderValueRef.kind, hbuf]

/-- Witness for the amended C2 at a concrete reachable `Hash`-kind state. -/
theorem roundtrip_via_view_amended_witness :
    Reachable (HashBuilderValue.new.set_from_ref
      (HashBuilderValueRef.Hash (B256.from_slice (List.replicate 32 17)))) ∧
    (HashBuilderValue.new.set_from_ref
        ((HashBuilderValue.new.set_from_ref
          (HashBuilderValueRef.Hash
            (B256.from_slice (List.replicate 32 17)))).as_ref)).buf =
      (HashBuilderValue.new.set_from_ref
        (HashBuilderValueRef.Hash
          (B256.from_slice (List.replicate 32 17)))).buf ∧
    (HashBuilderValue.new.set_from_ref
        ((HashBuilderValue.new.set_from_ref
          (HashBuilderValueRef.Hash
            (B256.from_slice (List.replicate 32 17)))).as_ref)).kind =
      (HashBuilderValue.new.set_from_ref
        (HashBuilderValueRef.Hash
          (B256.from_slice (List.replicate 32 17)))).kind ∧
    (((HashBuilderValue.new.set_from_ref
          (HashBuilderValueRef.Hash
            (B256.from_slice (List.replicate 32 17)))).kind =
        HashBuilderValueKind.Bytes →
      (HashBuilderValue.new.set_from_ref
        (HashBuilderValueRef.Hash
          (B256.from_slice (List.replicate 32 17))))._hash = B256.default) →
      HashBuilderValue.new.set_from_ref
          ((HashBuilderValue.new.set_from_ref
            (HashBuilderValueRef.Hash
              (B256.from_slice (List.replicate 32 17)))).as_ref) =
        HashBuilderValue.new.set_from_ref
          (HashBuilderValueRef.Hash
            (B256.from_slice (List.replicate 32 17)))) :=
  ⟨Reachable.set_from_ref _ _ Reachable.new,
   roundtrip_via_view_amended _ (Reachable.set_from_ref _ _ Reachable.new)⟩

/-- C8 counterexample: the arbitrary-crate generator is not bounded by 128
bytes for the `Bytes` kind: `Vec::<u8>::arbitrary` can return a vector of any
length, and feeding a 129-byte vector produces a `Bytes`-kind instance whose
buffer length is 129, contradicting the claimed 0–128 bound for both
generators. -/
theorem generator_bound_counterexample :
    (HashBuilderValue.arbitraryGen HashBuilderValueKind.Bytes
      (List.replicate 129 0) B256.default).kind = HashBuilderValueKind.Bytes ∧
    ¬ (HashBuilderValue.arbitraryGen HashBuilderValueKind.Bytes
      (List.replicate 129 0) B256.default).buf.length ≤ 128 := by
  constructor
  · rfl
  · decide

/-- C8 amended: every arbitrary-crate instance is either of `Bytes` kind
(with a buffer of arbitrary length, unbounded by 128) or of `Hash` kind with
a 32-byte buffer equal to the cached hash bytes; every proptest instance —
whose buffer length lies in the strategy's range `kindLenRange` — is either
of `Bytes` kind with a buffer of length between 0 and 128 bytes, or of
`Hash` kind with a 32-byte buffer equal to the cached hash bytes. -/
theorem generator_validity_amended (k1 : HashBuilderValueKind)
    (vecData : List Nat) (hashData : B256) (k2 : HashBuilderValueKind)
    (buf : List Nat)
    (hlen : (kindLenRange k2).1 ≤ buf.length ∧
            buf.length ≤ (kindLenRange k2).2) :
    ((HashBuilderValue.arbitraryGen k1 vecData hashData).kind =
        HashBuilderValueKind.Hash →
      (HashBuilderValue.arbitraryGen k1 vecData hashData).buf.length = 32 ∧
      (HashBuilderValue.arbitraryGen k1 vecData hashData).buf =
        (HashBuilderValue.arbitraryGen k1 vecData hashData)._hash.val) ∧
    ((HashBuilderValue.arbitraryGen k1 vecData hashData).kind =
        HashBuilderValueKind.Bytes →
      (HashBuilderValue.arbitraryGen k1 vecData hashData)._hash =
        B256.default) ∧
    ((HashBuilderValue.proptestGen k2 buf).kind =
        HashBuilderValueKind.Bytes →
      (HashBuilderValue.proptestGen k2 buf).buf.length ≤ 128) ∧
    ((HashBuilderValue.proptestGen k2 buf).kind =
        HashBuilderValueKind.Hash →
      (HashBuilderValue.proptestGen k2 buf).buf.length = 32 ∧
      (HashBuilderValue.proptestGen k2 buf).buf =
        (HashBuilderValue.proptestGen k2 buf)._hash.val) := by
  refine ⟨?_, ?_, ?_, ?_⟩
  · intro hk
    cases k1 with
    | Bytes => simp [HashBuilderValue.arbitraryGen] at hk
    | Hash => exact ⟨hashData.2, rfl⟩
  · intro hk
    cases k1 with
    | Bytes => rfl
    | Hash => simp [HashBuilderValue.arbitraryGen] at hk
  · intro hk
    cases k2 with
    | Bytes => exact hlen.2
    | Hash => simp [HashBuilderValue.proptestGen] at hk
  · intro hk
    cases k2 with
    | Bytes => simp [HashBuilderValue.proptestGen] at hk
    | Hash =>
        have h32 : buf.length = 32 :=
          Nat.le_antisymm hlen.2 hlen.1
        refine ⟨h32, ?_⟩
        simp [HashBuilderValue.proptestGen, B256.from_slice, h32]

/-- Witness for the amended C8: concrete draws for both generators. -/
theorem generator_validity_amended_witness :
    ((kindLenRange HashBuilderValueKind.Bytes).1 ≤ [170].length ∧
      [170].length ≤ (kindLenRange HashBuilderValueKind.Bytes).2) ∧
    (((HashBuilderValue.arbitraryGen HashBuilderValueKind.Hash []
          B256.default).kind = HashBuilderValueKind.Hash →
      (HashBuilderValue.arbitraryGen HashBuilderValueKind.Hash []
          B256.default).buf.length = 32 ∧
      (HashBuilderValue.arbitraryGen HashBuilderValueKind.Hash []
          B256.default).buf =
        (HashBuilderValue.arbitraryGen HashBuilderValueKind.Hash []
          B256.default)._hash.val) ∧
    ((HashBuilderValue.arbitraryGen HashBuilderValueKind.Hash []
          B256.default).kind = HashBuilderValueKind.Bytes →
      (HashBuilderValue.arbitraryGen HashBuilderValueKind.Hash []
          B256.default)._hash = B256.default) ∧
    ((HashBuilderValue.proptestGen HashBuilderValueKind.Bytes [170]).kind =
        HashBuilderValueKind.Bytes →
      (HashBuilderValue.proptestGen HashBuilderValueKind.Bytes
          [170]).buf.length ≤ 128) ∧
    ((HashBuilderValue.proptestGen HashBuilderValueKind.Bytes [170]).kind =
        HashBuilderValueKind.Hash →
      (HashBuilderValue.proptestGen HashBuilderValueKind.Bytes
          [170]).buf.length = 32 ∧
      (HashBuilderValue.proptestGen HashBuilderValueKind.Bytes [170]).buf =
        (HashBuilderValue.proptestGen HashBuilderValueKind.Bytes
          [170])._hash.val)) :=
  ⟨by decide,
   generator_validity_amended HashBuilderValueKind.Hash [] B256.default
     HashBuilderValueKind.Bytes [170] (by decide)⟩

/-- C9: the debug rendering of a reference is the variant name around the
`0x`-prefixed lowercase hex encoding of its bytes; the owner's debug
rendering always equals the rendering of its effective view (so a stale
cached hash is never shown in `Bytes` mode); and concretely, a fresh value
after `set_bytes_owned` of four `0xAA` bytes renders as `Bytes(0xaaaaaaaa)`
— also when a stale nonzero cached hash is present — and a `Hash` view of
thirty-two `0x11` bytes renders as `Hash(0x11...11)`. -/
theorem debug_rendering :
    (∀ v : HashBuilderValue, v.debugFmt = v.as_ref.debugFmt) ∧
    (∀ bytes : List Nat, (HashBuilderValueRef.Bytes bytes).debugFmt =
      "Bytes" ++ "(" ++ encodeHex0x bytes ++ ")") ∧
    (∀ hsh : B256, (HashBuilderValueRef.Hash hsh).debugFmt =
      "Hash" ++ "(" ++ encodeHex0x hsh.val ++ ")") ∧
    (HashBuilderValue.new.set_bytes_owned (List.replicate 4 170)).debugFmt =
      "Bytes(0xaaaaaaaa)" ∧
    ((HashBuilderValue.new.set_from_ref
        (HashBuilderValueRef.Hash
          (B256.from_slice (List.replicate 32 17)))).set_bytes_owned
        (List.replicate 4 170)).debugFmt = "Bytes(0xaaaaaaaa)" ∧
    (HashBuilderValue.new.set_from_ref
        (HashBuilderValueRef.Hash
          (B256.from_slice (List.replicate 32 17)))).debugFmt =
      "Hash(0x1111111111111111111111111111111111111111111111111111111111111111)" :=
  ⟨fun _ => rfl, fun _ => rfl, fun _ => rfl, by decide, by decide, by decide⟩

end AlloyTrie
